import Mathlib

/-!
Shallow embedding of the AWS Auto Scaling Group resource lifecycle logic of
src/aws/resource_aws_autoscaling_group.go, together with theorems settling the
frozen claims about it.

Terraform ResourceData access follows the zero-value convention of the Go
plugin SDK: d.GetOk reports false exactly when the attribute holds its zero
value (empty string, 0, empty list).  Optional scalar attributes are therefore
embedded as their zero-value-carrying type, and AWS SDK pointer fields as
Option.  Nil slices and empty slices are identified (both become []).
-/

/-- Config block of the top-level launch_template attribute (schema lines
67-95): id, name and version strings whose zero value is the empty string. -/
structure LaunchTemplateCfgBlock where
  id : String := ""
  name : String := ""
  version : String := ""
deriving DecidableEq

/-- AWS SDK LaunchTemplateSpecification (pointer fields become Option). -/
structure AwsLaunchTemplateSpecification where
  launchTemplateId : Option String := none
  launchTemplateName : Option String := none
  version : Option String := none
deriving DecidableEq

/-- Config block of mixed_instances_policy.launch_template.launch_template_specification. -/
structure AutoScalingLaunchTemplateSpecCfg where
  launchTemplateId : String := ""
  launchTemplateName : String := ""
  version : String := ""
deriving DecidableEq

/-- Config block of mixed_instances_policy.launch_template.override. -/
structure LaunchTemplateOverridesCfg where
  instanceType : String := ""
  weightedCapacity : String := ""
deriving DecidableEq

/-- AWS SDK LaunchTemplateOverrides. -/
structure AwsLaunchTemplateOverrides where
  instanceType : Option String := none
  weightedCapacity : Option String := none
deriving DecidableEq

/-- Config block of mixed_instances_policy.launch_template. -/
structure AutoScalingLaunchTemplateCfg where
  launchTemplateSpecification : List AutoScalingLaunchTemplateSpecCfg := []
  override : List LaunchTemplateOverridesCfg := []
deriving DecidableEq

/-- AWS SDK LaunchTemplate (of a mixed instances policy). -/
structure AwsLaunchTemplate where
  launchTemplateSpecification : AwsLaunchTemplateSpecification
  overrides : List AwsLaunchTemplateOverrides
deriving DecidableEq

/-- Config block of mixed_instances_policy.instances_distribution. -/
structure InstancesDistributionCfg where
  onDemandAllocationStrategy : String := ""
  onDemandBaseCapacity : Int := 0
  onDemandPercentageAboveBaseCapacity : Int := 0
  spotAllocationStrategy : String := ""
  spotInstancePools : Int := 0
  spotMaxPrice : String := ""
deriving DecidableEq

/-- AWS SDK InstancesDistribution. -/
structure AwsInstancesDistribution where
  onDemandAllocationStrategy : Option String := none
  onDemandBaseCapacity : Option Int := none
  onDemandPercentageAboveBaseCapacity : Option Int := none
  spotAllocationStrategy : Option String := none
  spotInstancePools : Option Int := none
  spotMaxPrice : Option String := none
deriving DecidableEq

/-- Config block of the mixed_instances_policy attribute. -/
structure MixedInstancesPolicyCfg where
  instancesDistribution : List InstancesDistributionCfg := []
  launchTemplate : List AutoScalingLaunchTemplateCfg := []
deriving DecidableEq

/-- AWS SDK MixedInstancesPolicy. -/
structure AwsMixedInstancesPolicy where
  launchTemplate : Option AwsLaunchTemplate
  instancesDistribution : Option AwsInstancesDistribution
deriving DecidableEq

/-- Config block of the initial_lifecycle_hook attribute (schema, create path). -/
structure LifecycleHookCfg where
  name : String := ""
  defaultResult : String := ""
  heartbeatTimeout : Int := 0
  lifecycleTransition : String := ""
  notificationMetadata : String := ""
  notificationTargetArn : String := ""
  roleArn : String := ""
deriving DecidableEq

/-- AWS SDK PutLifecycleHookInput. -/
structure PutLifecycleHookInput where
  autoScalingGroupName : String
  lifecycleHookName : String
  defaultResult : Option String := none
  heartbeatTimeout : Option Int := none
  lifecycleTransition : Option String := none
  notificationMetadata : Option String := none
  notificationTargetArn : Option String := none
  roleArn : Option String := none
deriving DecidableEq

/-- Embeds expandAutoScalingInstancesDistribution (lines 1542-1576): nil for an
empty config list, otherwise each optional field is set subject to the
zero-value guards of the source. -/
def expandAutoScalingInstancesDistribution (l : List InstancesDistributionCfg) :
    Option AwsInstancesDistribution :=
  match l with
  | [] => none
  | m :: _ =>
    some
      { onDemandAllocationStrategy :=
          if m.onDemandAllocationStrategy ≠ "" then some m.onDemandAllocationStrategy else none
        onDemandBaseCapacity := some m.onDemandBaseCapacity
        onDemandPercentageAboveBaseCapacity := some m.onDemandPercentageAboveBaseCapacity
        spotAllocationStrategy :=
          if m.spotAllocationStrategy ≠ "" then some m.spotAllocationStrategy else none
        spotInstancePools :=
          if m.spotInstancePools ≠ 0 then some m.spotInstancePools else none
        spotMaxPrice := some m.spotMaxPrice }

/-- Embeds expandAutoScalingLaunchTemplateOverride (lines 1613-1625). -/
def expandAutoScalingLaunchTemplateOverride (m : LaunchTemplateOverridesCfg) :
    AwsLaunchTemplateOverrides :=
  { instanceType := if m.instanceType ≠ "" then some m.instanceType else none
    weightedCapacity := if m.weightedCapacity ≠ "" then some m.weightedCapacity else none }

/-- Embeds expandAutoScalingLaunchTemplateOverrides (lines 1596-1611). -/
def expandAutoScalingLaunchTemplateOverrides (l : List LaunchTemplateOverridesCfg) :
    List AwsLaunchTemplateOverrides :=
  l.map expandAutoScalingLaunchTemplateOverride

/-- Embeds expandAutoScalingLaunchTemplateSpecification (lines 1627-1652):
prefers the launch template id over the name when both are present. -/
def expandAutoScalingLaunchTemplateSpecification (l : List AutoScalingLaunchTemplateSpecCfg) :
    AwsLaunchTemplateSpecification :=
  match l with
  | [] => {}
  | m :: _ =>
    let ltId : Option String := if m.launchTemplateId ≠ "" then some m.launchTemplateId else none
    { launchTemplateId := ltId
      launchTemplateName :=
        if m.launchTemplateName ≠ "" ∧ ltId = none then some m.launchTemplateName else none
      version := if m.version ≠ "" then some m.version else none }

/-- Embeds expandAutoScalingLaunchTemplate (lines 1578-1594). -/
def expandAutoScalingLaunchTemplate (l : List AutoScalingLaunchTemplateCfg) :
    Option AwsLaunchTemplate :=
  match l with
  | [] => none
  | m :: _ =>
    some
      { launchTemplateSpecification :=
          expandAutoScalingLaunchTemplateSpecification m.launchTemplateSpecification
        overrides := expandAutoScalingLaunchTemplateOverrides m.override }

/-- Embeds expandAutoScalingMixedInstancesPolicy (lines 1654-1670): nil for an
empty config list. -/
def expandAutoScalingMixedInstancesPolicy (l : List MixedInstancesPolicyCfg) :
    Option AwsMixedInstancesPolicy :=
  match l with
  | [] => none
  | m :: _ =>
    some
      { launchTemplate := expandAutoScalingLaunchTemplate m.launchTemplate
        instancesDistribution := expandAutoScalingInstancesDistribution m.instancesDistribution }

/-- Modelled from the spec: expandLaunchTemplateSpecification is called at line
597 of src/aws/resource_aws_autoscaling_group.go but its definition lives in a
repository file outside src/.  Spec 4.1: "Launch-template resolution prefers an
explicit ID over a name when both are present (provider requires exactly one)".
The spec records no failure mode for the translation, so it is embedded as a
total function (the Go signature also returns an error value). -/
def expandLaunchTemplateSpecification (l : List LaunchTemplateCfgBlock) :
    AwsLaunchTemplateSpecification :=
  match l with
  | [] => {}
  | m :: _ =>
    let ltId : Option String := if m.id ≠ "" then some m.id else none
    { launchTemplateId := ltId
      launchTemplateName := if m.name ≠ "" ∧ ltId = none then some m.name else none
      version := if m.version ≠ "" then some m.version else none }

/-- Embeds generatePutLifecycleHookInputs (lines 494-533). -/
def generatePutLifecycleHookInputs (asgName : String) (cfgs : List LifecycleHookCfg) :
    List PutLifecycleHookInput :=
  cfgs.map fun cfg =>
    { autoScalingGroupName := asgName
      lifecycleHookName := cfg.name
      defaultResult := if cfg.defaultResult ≠ "" then some cfg.defaultResult else none
      heartbeatTimeout := if cfg.heartbeatTimeout > (0 : Int) then some cfg.heartbeatTimeout else none
      lifecycleTransition :=
        if cfg.lifecycleTransition ≠ "" then some cfg.lifecycleTransition else none
      notificationMetadata :=
        if cfg.notificationMetadata ≠ "" then some cfg.notificationMetadata else none
      notificationTargetArn :=
        if cfg.notificationTargetArn ≠ "" then some cfg.notificationTargetArn else none
      roleArn := if cfg.roleArn ≠ "" then some cfg.roleArn else none }

/-- Embeds expandVpcZoneIdentifiers (lines 1534-1540).  The source allocates
strs with make of length len(list) and then appends, so the joined string
starts with one empty entry per input element. -/
def expandVpcZoneIdentifiers (list : List String) : String :=
  let strs := List.replicate list.length "" ++ list
  String.intercalate "," strs

/-- Desired-state document of the group as the create path reads it from
ResourceData (resourceAwsAutoscalingGroupCreate, lines 535-657).  Zero values
mean the attribute is unset, matching d.GetOk. -/
structure GroupSpec where
  name : String := ""
  minSize : Nat := 0
  maxSize : Nat := 0
  desiredCapacity : Nat := 0
  launchConfiguration : String := ""
  launchTemplate : List LaunchTemplateCfgBlock := []
  mixedInstancesPolicy : List MixedInstancesPolicyCfg := []
  initialLifecycleHooks : List LifecycleHookCfg := []
  availabilityZones : List String := []
  defaultCooldown : Nat := 0
  healthCheckType : String := ""
  healthCheckGracePeriod : Nat := 0
  placementGroup : String := ""
  loadBalancers : List String := []
  vpcZoneIdentifier : List String := []
  terminationPolicies : List String := []
  targetGroupArns : List String := []
  serviceLinkedRoleArn : String := ""
  maxInstanceLifetime : Nat := 0
  protectFromScaleIn : Bool := false
  forceDelete : Bool := false
deriving DecidableEq

/-- AWS SDK CreateAutoScalingGroupInput restricted to the fields the create
path populates (tag expansion is the out-of-scope tagging collaborator). -/
structure CreateAutoScalingGroupInput where
  autoScalingGroupName : String
  mixedInstancesPolicy : Option AwsMixedInstancesPolicy := none
  newInstancesProtectedFromScaleIn : Bool := false
  minSize : Option Nat := none
  maxSize : Option Nat := none
  desiredCapacity : Option Nat := none
  launchConfigurationName : Option String := none
  launchTemplate : Option AwsLaunchTemplateSpecification := none
  availabilityZones : List String := []
  defaultCooldown : Option Nat := none
  healthCheckType : Option String := none
  healthCheckGracePeriod : Option Nat := none
  placementGroup : Option String := none
  loadBalancerNames : List String := []
  vpcZoneIdentifier : Option String := none
  terminationPolicies : List String := []
  targetGroupARNs : List String := []
  serviceLinkedRoleARN : Option String := none
  maxInstanceLifetime : Option Nat := none
deriving DecidableEq

/-- AWS SDK UpdateAutoScalingGroupInput restricted to the capacity fields the
two-phase create path populates (lines 555-574). -/
structure UpdateAutoScalingGroupInput where
  autoScalingGroupName : String
  minSize : Option Nat := none
  maxSize : Option Nat := none
  desiredCapacity : Option Nat := none
deriving DecidableEq

/-- Error returned at line 588 when no launch source is resolvable. -/
def noLaunchSourceError : String :=
  "One of `launch_configuration`, `launch_template`, or `mixed_instances_policy` must be set for an autoscaling group"

/-- Embeds the request-building prefix of resourceAwsAutoscalingGroupCreate
(lines 550-657): everything before the CreateAutoScalingGroup API call.
Returns the create input together with the deferred capacity update input
(some exactly when the two-phase path is taken because initial lifecycle hooks
are present). -/
def resourceAwsAutoscalingGroupCreateBuild (d : GroupSpec) :
    Except String (CreateAutoScalingGroupInput × Option UpdateAutoScalingGroupInput) :=
  let asgName := d.name
  let createOpts0 : CreateAutoScalingGroupInput :=
    { autoScalingGroupName := asgName
      mixedInstancesPolicy := expandAutoScalingMixedInstancesPolicy d.mixedInstancesPolicy
      newInstancesProtectedFromScaleIn := d.protectFromScaleIn }
  let twoPhases := d.initialLifecycleHooks.length > 0
  let minSize := d.minSize
  let maxSize := d.maxSize
  let createOpts1 :=
    if twoPhases then
      { createOpts0 with minSize := some 0, maxSize := some 0 }
    else
      { createOpts0 with
        minSize := some minSize
        maxSize := some maxSize
        desiredCapacity := if d.desiredCapacity ≠ 0 then some d.desiredCapacity else none }
  let updateOpts : UpdateAutoScalingGroupInput :=
    if twoPhases then
      { autoScalingGroupName := asgName
        minSize := some minSize
        maxSize := some maxSize
        desiredCapacity := if d.desiredCapacity ≠ 0 then some d.desiredCapacity else none }
    else { autoScalingGroupName := asgName }
  let launchConfigurationOk := d.launchConfiguration ≠ ""
  let launchTemplateOk := d.launchTemplate ≠ []
  if createOpts1.mixedInstancesPolicy = none ∧ ¬launchConfigurationOk ∧ ¬launchTemplateOk then
    .error noLaunchSourceError
  else
    let createOpts2 :=
      { createOpts1 with
        launchConfigurationName :=
          if launchConfigurationOk then some d.launchConfiguration else none
        launchTemplate :=
          if launchTemplateOk then some (expandLaunchTemplateSpecification d.launchTemplate)
          else none
        availabilityZones := d.availabilityZones
        defaultCooldown := if d.defaultCooldown ≠ 0 then some d.defaultCooldown else none
        healthCheckType := if d.healthCheckType ≠ "" then some d.healthCheckType else none
        healthCheckGracePeriod :=
          if d.healthCheckGracePeriod ≠ 0 then some d.healthCheckGracePeriod else none
        placementGroup := if d.placementGroup ≠ "" then some d.placementGroup else none
        loadBalancerNames := d.loadBalancers
        vpcZoneIdentifier :=
          if d.vpcZoneIdentifier ≠ [] then some (expandVpcZoneIdentifiers d.vpcZoneIdentifier)
          else none
        terminationPolicies := d.terminationPolicies
        targetGroupARNs := d.targetGroupArns
        serviceLinkedRoleARN :=
          if d.serviceLinkedRoleArn ≠ "" then some d.serviceLinkedRoleArn else none
        maxInstanceLifetime :=
          if d.maxInstanceLifetime ≠ 0 then some d.maxInstanceLifetime else none }
    .ok (createOpts2, if twoPhases then some updateOpts else none)

/-- API calls the create path issues, in order. -/
inductive CreateApiCall where
  | createAutoScalingGroup (input : CreateAutoScalingGroupInput)
  | putLifecycleHook (input : PutLifecycleHookInput)
  | updateAutoScalingGroup (input : UpdateAutoScalingGroupInput)
deriving DecidableEq

/-- Embeds the API-call sequence of resourceAwsAutoscalingGroupCreate
(lines 659-697) on the all-calls-succeed path: the create request, then (only
in the two-phase case) one PutLifecycleHook per initial hook followed by the
deferred capacity update. -/
def resourceAwsAutoscalingGroupCreateCalls (d : GroupSpec) : Except String (List CreateApiCall) :=
  match resourceAwsAutoscalingGroupCreateBuild d with
  | .error e => .error e
  | .ok (createOpts, deferredUpdate) =>
    .ok (CreateApiCall.createAutoScalingGroup createOpts ::
      (match deferredUpdate with
       | some u =>
         (generatePutLifecycleHookInputs d.name d.initialLifecycleHooks).map
           CreateApiCall.putLifecycleHook ++ [CreateApiCall.updateAutoScalingGroup u]
       | none => []))

/-- Embeds the termination-policy branch of resourceAwsAutoscalingGroupRead
(lines 814-824).  configTerminationPolicies is the declared list (d.GetOk is
false exactly when it is empty); observed is g.TerminationPolicies. -/
def readTerminationPolicies (configTerminationPolicies observed : List String) : List String :=
  if ¬configTerminationPolicies ≠ [] ∧ observed.length = 1 ∧ observed.headD "" = "Default" then
    []
  else observed

/-- One merged autoscaling tag (key, value, propagate-at-launch). -/
structure AsgTag where
  key : String
  value : String
  propagateAtLaunch : Bool
deriving DecidableEq

/-- Go map assignment m[k] = v: overwrite the binding when the key exists,
otherwise add it. -/
def goMapInsert (m : List (String × String)) (k v : String) : List (String × String) :=
  if m.any (fun p => p.1 == k) then m.map (fun p => if p.1 == k then (k, v) else p)
  else m ++ [(k, v)]

/-- Embeds the propagated-tag map construction of the update path
(lines 1020-1032): key-to-value for exactly the tags whose
PropagateAtLaunch flag is set. -/
def propagatedTagMap (tags : List AsgTag) : List (String × String) :=
  tags.foldl (fun m t => if t.propagateAtLaunch then goMapInsert m t.key t.value else m) []

/-- Go reflect.DeepEqual on two maps: equal key sets with equal values.  The
association lists produced by goMapInsert have unique keys, so two-sided
lookup agreement is exactly map equality. -/
def goMapsDeepEqual (m1 m2 : List (String × String)) : Bool :=
  m1.all (fun p => m2.lookup p.1 == some p.2) && m2.all (fun p => m1.lookup p.1 == some p.2)

/-- Diff context of resourceAwsAutoscalingGroupUpdate relevant to the
shouldRefreshInstances marker: the HasChange outcome of each field that feeds
the marker (lines 928-987) and the merged old/new tag collections of the tag
branch (lines 1004-1037). -/
structure UpdateCtx where
  launchConfigurationChanged : Bool := false
  launchTemplateChanged : Bool := false
  mixedInstancesPolicyChanged : Bool := false
  vpcZoneIdentifierChanged : Bool := false
  availabilityZonesChanged : Bool := false
  placementGroupChanged : Bool := false
  tagChanged : Bool := false
  oldTags : List AsgTag := []
  newTags : List AsgTag := []
deriving DecidableEq

/-- Embeds the computation of the shouldRefreshInstances marker in
resourceAwsAutoscalingGroupUpdate (lines 911, 928-987, 1020-1036, 1045). -/
def shouldRefreshInstances (c : UpdateCtx) : Bool :=
  c.launchConfigurationChanged || c.launchTemplateChanged || c.mixedInstancesPolicyChanged ||
  c.vpcZoneIdentifierChanged || c.availabilityZonesChanged || c.placementGroupChanged ||
  (c.tagChanged && !goMapsDeepEqual (propagatedTagMap c.oldTags) (propagatedTagMap c.newTags))

/-- Fueled form of the batching loop: each iteration strips ten elements, so
fuel equal to the list length always suffices. -/
def asgBatchesAux : Nat → List String → List (List String)
  | 0, l => [l]
  | n + 1, l =>
    if 10 < l.length then l.take 10 :: asgBatchesAux n (l.drop 10)
    else [l]

/-- Embeds the batching loop of the load-balancer / target-group attachment
reconciler (lines 1064-1073 and its three copies): chunks of ten, with the
remainder as the final batch. -/
def asgBatches (l : List String) : List (List String) :=
  asgBatchesAux l.length l

/-- schema.Set.Difference on the duplicate-free membership lists of two sets. -/
def setDifference (a b : List String) : List String :=
  a.filter (fun x => !b.contains x)

/-- API calls and waits issued by the attachment reconciliation section of
resourceAwsAutoscalingGroupUpdate, in order. -/
inductive AttachmentApiEvent where
  | detachLoadBalancers (batch : List String)
  | waitLoadBalancersRemoved
  | attachLoadBalancers (batch : List String)
  | waitLoadBalancersAdded
  | detachLoadBalancerTargetGroups (batch : List String)
  | waitLoadBalancerTargetGroupsRemoved
  | attachLoadBalancerTargetGroups (batch : List String)
  | waitLoadBalancerTargetGroupsAdded
deriving DecidableEq

/-- Embeds the load_balancers branch of resourceAwsAutoscalingGroupUpdate
(lines 1049-1117) on the all-calls-succeed path: removals are detached in
batches, each batch followed by its convergence wait before the next batch,
then additions likewise. -/
def updateLoadBalancersCalls (old new : List String) : List AttachmentApiEvent :=
  let remove := setDifference old new
  let add := setDifference new old
  (if remove.length > 0 then
    (asgBatches remove).flatMap
      (fun b => [AttachmentApiEvent.detachLoadBalancers b,
                 AttachmentApiEvent.waitLoadBalancersRemoved])
   else []) ++
  (if add.length > 0 then
    (asgBatches add).flatMap
      (fun b => [AttachmentApiEvent.attachLoadBalancers b,
                 AttachmentApiEvent.waitLoadBalancersAdded])
   else [])

/-- Embeds the target_group_arns branch of resourceAwsAutoscalingGroupUpdate
(lines 1119-1186) on the all-calls-succeed path. -/
def updateTargetGroupsCalls (old new : List String) : List AttachmentApiEvent :=
  let remove := setDifference old new
  let add := setDifference new old
  (if remove.length > 0 then
    (asgBatches remove).flatMap
      (fun b => [AttachmentApiEvent.detachLoadBalancerTargetGroups b,
                 AttachmentApiEvent.waitLoadBalancerTargetGroupsRemoved])
   else []) ++
  (if add.length > 0 then
    (asgBatches add).flatMap
      (fun b => [AttachmentApiEvent.attachLoadBalancerTargetGroups b,
                 AttachmentApiEvent.waitLoadBalancerTargetGroupsAdded])
   else [])

/-- One item of a paginated DescribeLoadBalancers /
DescribeLoadBalancerTargetGroups response: only its state string matters. -/
structure AttachmentState where
  name : String := ""
  state : String := ""
deriving DecidableEq

/-- One page of the paginated attachment-state response.  nextToken is the
aws.StringValue of the SDK pointer, so the empty string means no further
page. -/
structure AttachmentPage where
  items : List AttachmentState := []
  nextToken : String := ""
deriving DecidableEq

/-- Outcome of one attachment-state wait. -/
inductive WaitOutcome where
  | ok
  | apiError (msg : String)
  | outOfFuel
deriving DecidableEq

/-- Embeds the polling loop shared by the four attachment waits
(waitUntilAutoscalingGroupLoadBalancerTargetGroupsRemoved lines 836-870 and
its Added / LoadBalancers copies), parameterized by the transitional state
string.  srv models the provider: the response to the n-th describe call with
the given pagination token (the empty token is the first page).  fuel bounds
the number of calls so the loop is total; outOfFuel marks runs the Go loop
would continue. -/
def waitAttachLoop (transitional : String)
    (srv : Nat → String → Except String AttachmentPage) :
    Nat → Nat → String → WaitOutcome
  | 0, _, _ => .outOfFuel
  | fuel + 1, k, token =>
    match srv k token with
    | .error e => .apiError e
    | .ok page =>
      if page.items.any (fun item => item.state == transitional) then
        waitAttachLoop transitional srv fuel (k + 1) ""
      else if page.nextToken == "" then .ok
      else waitAttachLoop transitional srv fuel (k + 1) page.nextToken

/-- Embeds waitUntilAutoscalingGroupLoadBalancerTargetGroupsRemoved
(lines 836-870): transitional state "Removing", starting from the first
page. -/
def waitUntilAutoscalingGroupLoadBalancerTargetGroupsRemoved
    (srv : Nat → String → Except String AttachmentPage) (fuel : Nat) : WaitOutcome :=
  waitAttachLoop "Removing" srv fuel 0 ""

/-- Embeds waitUntilAutoscalingGroupLoadBalancerTargetGroupsAdded
(lines 872-906). -/
def waitUntilAutoscalingGroupLoadBalancerTargetGroupsAdded
    (srv : Nat → String → Except String AttachmentPage) (fuel : Nat) : WaitOutcome :=
  waitAttachLoop "Adding" srv fuel 0 ""

/-- Embeds waitUntilAutoscalingGroupLoadBalancersAdded (lines 1747-1781). -/
def waitUntilAutoscalingGroupLoadBalancersAdded
    (srv : Nat → String → Except String AttachmentPage) (fuel : Nat) : WaitOutcome :=
  waitAttachLoop "Adding" srv fuel 0 ""

/-- Embeds waitUntilAutoscalingGroupLoadBalancersRemoved (lines 1783-1817). -/
def waitUntilAutoscalingGroupLoadBalancersRemoved
    (srv : Nat → String → Except String AttachmentPage) (fuel : Nat) : WaitOutcome :=
  waitAttachLoop "Removing" srv fuel 0 ""

/-- A full clean pass: starting at the given call index and token, every page
answers without error, contains no item in the transitional state, and the
chain of pagination tokens ends in a page with no further token. -/
def cleanPassFrom (transitional : String)
    (srv : Nat → String → Except String AttachmentPage) :
    Nat → Nat → String → Bool
  | 0, _, _ => false
  | fuel + 1, k, token =>
    match srv k token with
    | .error _ => false
    | .ok page =>
      !page.items.any (fun item => item.state == transitional) &&
      (page.nextToken == "" || cleanPassFrom transitional srv fuel (k + 1) page.nextToken)

/-- Observed live state of the group as far as the delete path inspects it:
the instance count and the desired capacity. -/
structure AsgGroup where
  instances : Nat := 0
  desiredCapacity : Int := 0
deriving DecidableEq

/-- Response of getAwsAutoscalingGroup (lines 1287-1311): the matching group,
idempotent absence (an InvalidGroup.NotFound describe error or no name match,
both of which the source turns into a nil group), or any other API error. -/
inductive DescribeResp where
  | notFound
  | found (g : AsgGroup)
  | apiError (msg : String)
deriving DecidableEq

/-- Response of one DeleteAutoScalingGroup call: success, an awserr with the
given code, or a non-awserr error. -/
inductive DeleteResp where
  | ok
  | errCode (code : String)
  | plainError (msg : String)
deriving DecidableEq

/-- Response of the capacity-to-zero UpdateAutoScalingGroup call of the drain
path. -/
inductive UpdateResp where
  | ok
  | err (msg : String)
deriving DecidableEq

/-- Scripted provider for the delete path: the n-th describe call's response,
the n-th delete call's response, and the response of the single drain
update. -/
structure AsgProviderEnv where
  describe : Nat → DescribeResp
  deleteGroup : Nat → DeleteResp
  updateGroup : UpdateResp

/-- API calls of the delete path, each recorded with the response it got. -/
inductive DeleteApiEvent where
  | describeGroup (resp : DescribeResp)
  | updateGroupZero
  | deleteGroup (force : Bool) (resp : DeleteResp)
deriving DecidableEq

/-- Embeds the drain polling loop of resourceAwsAutoscalingGroupDrain
(lines 1336-1362): describe until the group has zero instances (or is gone);
a describe error is non-retryable; fuel exhaustion models resource.Retry
timing out, after which the source makes one final describe attempt.  Returns
the result, the events issued, and the next describe call index. -/
def drainPoll (env : AsgProviderEnv) :
    Nat → Nat → Except String Unit × List DeleteApiEvent × Nat
  | 0, k =>
    match env.describe k with
    | .apiError m =>
      (.error ("Error getting autoscaling group info when draining: " ++ m),
       [.describeGroup (.apiError m)], k + 1)
    | .notFound => (.ok (), [.describeGroup .notFound], k + 1)
    | .found g =>
      (if 0 < g.instances then .error "Group still has instances" else .ok (),
       [.describeGroup (.found g)], k + 1)
  | fuel + 1, k =>
    match env.describe k with
    | .apiError m =>
      (.error ("Error draining autoscaling group: " ++ m),
       [.describeGroup (.apiError m)], k + 1)
    | .notFound => (.ok (), [.describeGroup .notFound], k + 1)
    | .found g =>
      if g.instances = 0 then (.ok (), [.describeGroup (.found g)], k + 1)
      else
        let r := drainPoll env fuel (k + 1)
        (r.1, .describeGroup (.found g) :: r.2.1, r.2.2)

/-- Embeds resourceAwsAutoscalingGroupDrain (lines 1313-1367): a no-op when
force_delete is set, otherwise the capacity-to-zero update followed by the
drain poll. -/
def resourceAwsAutoscalingGroupDrain (env : AsgProviderEnv) (force : Bool) (fuel k : Nat) :
    Except String Unit × List DeleteApiEvent × Nat :=
  if force then (.ok (), [], k)
  else
    match env.updateGroup with
    | .err m => (.error ("Error setting capacity to zero to drain: " ++ m), [.updateGroupZero], k)
    | .ok =>
      let r := drainPoll env fuel k
      (r.1, .updateGroupZero :: r.2.1, r.2.2)

/-- Embeds the DeleteAutoScalingGroup retry loop (lines 1238-1261):
InvalidGroup.NotFound is success, ResourceInUse and ScalingActivityInProgress
are retried, anything else is fatal at once; fuel exhaustion models
resource.Retry timing out, after which the source makes one final delete
attempt.  Returns the result, the events issued, and the next delete call
index. -/
def deleteAttemptLoop (env : AsgProviderEnv) (force : Bool) :
    Nat → Nat → Except String Unit × List DeleteApiEvent × Nat
  | 0, j =>
    match env.deleteGroup j with
    | .ok => (.ok (), [.deleteGroup force .ok], j + 1)
    | .errCode c =>
      (if c = "InvalidGroup.NotFound" then .ok ()
       else .error ("Error deleting autoscaling group: " ++ c),
       [.deleteGroup force (.errCode c)], j + 1)
    | .plainError m =>
      (.error ("Error deleting autoscaling group: " ++ m),
       [.deleteGroup force (.plainError m)], j + 1)
  | fuel + 1, j =>
    match env.deleteGroup j with
    | .ok => (.ok (), [.deleteGroup force .ok], j + 1)
    | .errCode c =>
      if c = "InvalidGroup.NotFound" then (.ok (), [.deleteGroup force (.errCode c)], j + 1)
      else if c = "ResourceInUse" ∨ c = "ScalingActivityInProgress" then
        let r := deleteAttemptLoop env force fuel (j + 1)
        (r.1, .deleteGroup force (.errCode c) :: r.2.1, r.2.2)
      else
        (.error ("Error deleting autoscaling group: " ++ c),
         [.deleteGroup force (.errCode c)], j + 1)
    | .plainError m =>
      (.error ("Error deleting autoscaling group: " ++ m),
       [.deleteGroup force (.plainError m)], j + 1)

/-- Embeds the poll-until-not-found loop after the delete call
(lines 1266-1283).  In the loop body the source retries while the group is
still found and returns nil otherwise, so a describe error inside the loop
ends the retry as success; only on the post-timeout final attempt does an
error surface. -/
def deletePoll (env : AsgProviderEnv) :
    Nat → Nat → Except String Unit × List DeleteApiEvent × Nat
  | 0, k =>
    match env.describe k with
    | .found g => (.error "Auto Scaling Group still exists", [.describeGroup (.found g)], k + 1)
    | .notFound => (.ok (), [.describeGroup .notFound], k + 1)
    | .apiError m =>
      (.error ("Error deleting autoscaling group: " ++ m), [.describeGroup (.apiError m)], k + 1)
  | fuel + 1, k =>
    match env.describe k with
    | .found g =>
      let r := deletePoll env fuel (k + 1)
      (r.1, .describeGroup (.found g) :: r.2.1, r.2.2)
    | .notFound => (.ok (), [.describeGroup .notFound], k + 1)
    | .apiError m => (.ok (), [.describeGroup (.apiError m)], k + 1)

/-- Embeds resourceAwsAutoscalingGroupDelete (lines 1209-1285): initial
describe (absence is success with no further calls), drain when the group
still has instances or positive desired capacity, the retried delete request,
then the poll until the group is gone.  Returns the result and the full event
trace. -/
def resourceAwsAutoscalingGroupDelete (env : AsgProviderEnv) (force : Bool)
    (drainFuel deleteFuel pollFuel : Nat) : Except String Unit × List DeleteApiEvent :=
  match env.describe 0 with
  | .apiError m =>
    (.error ("Error retrieving AutoScaling groups: " ++ m), [.describeGroup (.apiError m)])
  | .notFound => (.ok (), [.describeGroup .notFound])
  | .found g =>
    let ev0 := DeleteApiEvent.describeGroup (.found g)
    let afterDrain :=
      if 0 < g.instances ∨ 0 < g.desiredCapacity then
        resourceAwsAutoscalingGroupDrain env force drainFuel 1
      else (.ok (), [], 1)
    match afterDrain with
    | (.error m, tr, _) => (.error m, ev0 :: tr)
    | (.ok _, tr, k) =>
      match deleteAttemptLoop env force deleteFuel 0 with
      | (.error m, tr2, _) => (.error m, ev0 :: (tr ++ tr2))
      | (.ok _, tr2, _) =>
        let r3 := deletePoll env pollFuel k
        (r3.1, ev0 :: (tr ++ tr2 ++ r3.2.1))

/-- Event discriminator: a describe call. -/
def isDescribeEvent : DeleteApiEvent → Bool
  | .describeGroup _ => true
  | _ => false

/-- Event discriminator: a DeleteAutoScalingGroup call. -/
def isDeleteEvent : DeleteApiEvent → Bool
  | .deleteGroup _ _ => true
  | _ => false

/-- A describe event whose response shows the group fully drained: gone, or
with zero instances. -/
def observesDrained : DeleteApiEvent → Bool
  | .describeGroup .notFound => true
  | .describeGroup (.found g) => g.instances == 0
  | _ => false

/-- Number of launch sources resolvable from a spec, with each presence test
exactly as the create path performs it (lines 584-587). -/
def launchSourceCount (d : GroupSpec) : Nat :=
  (if d.launchConfiguration ≠ "" then 1 else 0) +
  (if d.launchTemplate ≠ [] then 1 else 0) +
  (if expandAutoScalingMixedInstancesPolicy d.mixedInstancesPolicy ≠ none then 1 else 0)

/-- Spec with two launch sources set (launch configuration and mixed
instances policy). -/
def c1TwoSourceSpec : GroupSpec :=
  { name := "web", minSize := 1, maxSize := 2, launchConfiguration := "lc-main",
    mixedInstancesPolicy := [{}] }

/-- Spec with no launch source set. -/
def c1ZeroSourceSpec : GroupSpec := { name := "web", minSize := 1, maxSize := 2 }

/-- Spec with exactly one launch source set. -/
def c1OneSourceSpec : GroupSpec :=
  { name := "web", minSize := 1, maxSize := 2, launchConfiguration := "lc-main" }

/-- Spec with one initial lifecycle hook, for the two-phase create path. -/
def c2HookedSpec : GroupSpec :=
  { name := "web", minSize := 1, maxSize := 3, desiredCapacity := 2,
    launchConfiguration := "lc-main",
    initialLifecycleHooks :=
      [{ name := "hook-1", lifecycleTransition := "autoscaling:EC2_INSTANCE_LAUNCHING" }] }

/-- Same spec without hooks, for the single-phase create path. -/
def c2PlainSpec : GroupSpec :=
  { name := "web", minSize := 1, maxSize := 3, desiredCapacity := 2,
    launchConfiguration := "lc-main" }

/-- Eleven load balancer names, as in the batching scenario of the spec. -/
def c3ElevenNames : List String :=
  ["A", "B", "C", "D", "E", "F", "G", "H", "I", "J", "K"]

/-- First page of the simulated attachment-state pagination: steady state,
with a further page. -/
def c4Page1 : AttachmentPage :=
  { items := [{ name := "tg-a", state := "Added" }], nextToken := "T2" }

/-- Second page on the first pass: one item still in the transitional
Removing state. -/
def c4Page2Bad : AttachmentPage :=
  { items := [{ name := "tg-b", state := "Removing" }], nextToken := "T3" }

/-- Second page on the second pass: steady state, no further page. -/
def c4Page2Good : AttachmentPage :=
  { items := [{ name := "tg-b", state := "Removed" }], nextToken := "" }

/-- Simulated provider: the second call (call index 1, token T2) still shows
a Removing item; after the restart the same token answers steady state. -/
def c4Srv : Nat → String → Except String AttachmentPage := fun k token =>
  if k = 1 ∧ token = "T2" then .ok c4Page2Bad
  else if token = "" then .ok c4Page1
  else if token = "T2" then .ok c4Page2Good
  else .error "unexpected token"

/-- Delete-path provider: a group with three instances that drains over two
polls, then deletes cleanly. -/
def c5Env : AsgProviderEnv :=
  { describe := fun k =>
      if k = 0 then .found { instances := 3, desiredCapacity := 3 }
      else if k = 1 then .found { instances := 1, desiredCapacity := 0 }
      else if k = 2 then .found { instances := 0, desiredCapacity := 0 }
      else .notFound
    deleteGroup := fun _ => .ok
    updateGroup := .ok }

/-- Delete-path provider that always answers ResourceInUse to delete calls. -/
def c6InUseEnv : AsgProviderEnv :=
  { describe := fun _ => .notFound
    deleteGroup := fun _ => .errCode "ResourceInUse"
    updateGroup := .ok }

/-- Delete-path provider that answers InvalidGroup.NotFound to delete calls. -/
def c6NotFoundEnv : AsgProviderEnv :=
  { describe := fun _ => .notFound
    deleteGroup := fun _ => .errCode "InvalidGroup.NotFound"
    updateGroup := .ok }

/-- Delete-path provider that answers an unclassified error to delete calls. -/
def c6OtherErrorEnv : AsgProviderEnv :=
  { describe := fun _ => .notFound
    deleteGroup := fun _ => .errCode "ValidationError"
    updateGroup := .ok }

/-- Delete-path provider whose initial describe reports the group absent. -/
def c7AbsentEnv : AsgProviderEnv :=
  { describe := fun _ => .notFound
    deleteGroup := fun _ => .ok
    updateGroup := .ok }

/-- Update context in which only tags changed, and only in a tag that does
not propagate at launch. -/
def c9NonPropagatedCtx : UpdateCtx :=
  { tagChanged := true
    oldTags := [{ key := "env", value := "dev", propagateAtLaunch := false },
                { key := "team", value := "a", propagateAtLaunch := true }]
    newTags := [{ key := "env", value := "prod", propagateAtLaunch := false },
                { key := "team", value := "a", propagateAtLaunch := true }] }

/-- Update context in which only tags changed, in a propagated tag. -/
def c9PropagatedCtx : UpdateCtx :=
  { tagChanged := true
    oldTags := [{ key := "team", value := "a", propagateAtLaunch := true }]
    newTags := [{ key := "team", value := "b", propagateAtLaunch := true }] }

/-- Keys of an association list are pairwise distinct. -/
def keysUnique (m : List (String × String)) : Prop :=
  (m.map Prod.fst).Nodup

/-- C10: expandVpcZoneIdentifiers does NOT return the comma-separated join of
exactly the given identifiers.  Because the source allocates the slice with
make of length len(list) and then appends, the result carries one leading
empty entry per identifier: for input [subnet-a] the code produces ",subnet-a"
where the join of exactly the configured subnets would be "subnet-a". -/
theorem C10_expandVpcZoneIdentifiers_failing_input :
    expandVpcZoneIdentifiers ["subnet-a"] = ",subnet-a" ∧
    expandVpcZoneIdentifiers ["subnet-a", "subnet-b"] = ",,subnet-a,subnet-b" ∧
    String.intercalate "," ["subnet-a"] = "subnet-a" := by
  refine ⟨?_, ?_, ?_⟩ <;> rfl

/-- C8: with no explicitly configured termination policies and an observed
list of exactly ["Default"], the reader reports the empty list; any other
observed list is reported verbatim regardless of the configured value. -/
theorem C8_termination_policy_elision (cfg obs : List String) :
    (cfg = [] → obs = ["Default"] → readTerminationPolicies cfg obs = []) ∧
    (obs ≠ ["Default"] → readTerminationPolicies cfg obs = obs) := by
  constructor
  · intro h1 h2
    subst h1; subst h2
    decide
  · intro hne
    unfold readTerminationPolicies
    rw [if_neg]
    intro hcond
    apply hne
    obtain ⟨-, hlen, hhead⟩ := hcond
    match obs, hlen with
    | [x], _ =>
      simp only [List.headD] at hhead
      rw [hhead]

/-- Witness for C8 at the two observed lists named by the spec. -/
theorem C8_witness :
    readTerminationPolicies [] ["Default"] = [] ∧
    readTerminationPolicies [] ["Default", "OldestInstance"] = ["Default", "OldestInstance"] :=
  ⟨(C8_termination_policy_elision [] ["Default"]).1 rfl rfl,
   (C8_termination_policy_elision [] ["Default", "OldestInstance"]).2 (by decide)⟩

/-- C7: when the initial describe reports the group as not found, delete
returns success and the trace holds that single describe call only: no drain
update, no delete request, no further polling. -/
theorem C7_delete_absent_noop (env : AsgProviderEnv) (force : Bool)
    (drainFuel deleteFuel pollFuel : Nat) (h : env.describe 0 = .notFound) :
    resourceAwsAutoscalingGroupDelete env force drainFuel deleteFuel pollFuel =
      (.ok (), [.describeGroup .notFound]) := by
  simp [resourceAwsAutoscalingGroupDelete, h]

/-- Witness for C7 on a provider whose describe always answers not-found. -/
theorem C7_witness :
    resourceAwsAutoscalingGroupDelete c7AbsentEnv false 5 5 5 =
      (.ok (), [.describeGroup .notFound]) :=
  C7_delete_absent_noop c7AbsentEnv false 5 5 5 rfl

/-- C1 (amended): the create path validates only the absence of all three
launch sources.  With zero sources it fails with the input-validation error
before the CreateAutoScalingGroup call; with at least one source (including
more than one) building the create request succeeds. -/
theorem C1_launch_source_validation (d : GroupSpec) :
    (launchSourceCount d = 0 →
      resourceAwsAutoscalingGroupCreateBuild d = .error noLaunchSourceError) ∧
    (0 < launchSourceCount d →
      ∃ out, resourceAwsAutoscalingGroupCreateBuild d = .ok out) := by
  constructor
  · intro h0
    have hlc : d.launchConfiguration = "" := by
      by_contra hne; simp [launchSourceCount, hne] at h0
    have hlt : d.launchTemplate = [] := by
      by_contra hne; simp [launchSourceCount, hne] at h0
    have hm : expandAutoScalingMixedInstancesPolicy d.mixedInstancesPolicy = none := by
      by_contra hne; simp [launchSourceCount, hne] at h0
    simp only [resourceAwsAutoscalingGroupCreateBuild,
      apply_ite CreateAutoScalingGroupInput.mixedInstancesPolicy, ite_self, ne_eq, not_not]
    rw [if_pos ⟨hm, hlc, hlt⟩]
  · intro hpos
    simp only [resourceAwsAutoscalingGroupCreateBuild,
      apply_ite CreateAutoScalingGroupInput.mixedInstancesPolicy, ite_self, ne_eq, not_not]
    split
    · next hcond =>
      obtain ⟨hm, hlc, hlt⟩ := hcond
      simp [launchSourceCount, hm, hlc, hlt] at hpos
    · exact ⟨_, rfl⟩

/-- Counterexample for C1 as frozen: a spec with two launch sources set
(launch configuration and mixed instances policy) does not fail input
validation; building the create request succeeds. -/
theorem C1_counterexample :
    launchSourceCount c1TwoSourceSpec = 2 ∧
    ∃ out, resourceAwsAutoscalingGroupCreateBuild c1TwoSourceSpec = .ok out :=
  ⟨by decide, ⟨_, rfl⟩⟩

/-- Witness for C1 at a zero-source and a one-source spec. -/
theorem C1_witness :
    (resourceAwsAutoscalingGroupCreateBuild c1ZeroSourceSpec = .error noLaunchSourceError) ∧
    (∃ out, resourceAwsAutoscalingGroupCreateBuild c1OneSourceSpec = .ok out) :=
  ⟨(C1_launch_source_validation c1ZeroSourceSpec).1 (by decide),
   (C1_launch_source_validation c1OneSourceSpec).2 (by decide)⟩

/-- C2: with at least one initial lifecycle hook the create request pins min
and max size to zero and carries no desired capacity, and the deferred update
(issued after the hook registrations in the call sequence) carries the real
min, max and desired capacity of the spec; with no hooks the create request
itself carries the real capacities and no deferred update exists. -/
theorem C2_two_phase_capacities (d : GroupSpec) (c : CreateAutoScalingGroupInput)
    (u : Option UpdateAutoScalingGroupInput)
    (hb : resourceAwsAutoscalingGroupCreateBuild d = .ok (c, u)) :
    (d.initialLifecycleHooks ≠ [] →
      c.minSize = some 0 ∧ c.maxSize = some 0 ∧ c.desiredCapacity = none ∧
      ∃ uu, u = some uu ∧ uu.minSize = some d.minSize ∧ uu.maxSize = some d.maxSize ∧
        uu.desiredCapacity = (if d.desiredCapacity ≠ 0 then some d.desiredCapacity else none) ∧
        resourceAwsAutoscalingGroupCreateCalls d =
          .ok (CreateApiCall.createAutoScalingGroup c ::
            ((generatePutLifecycleHookInputs d.name d.initialLifecycleHooks).map
              CreateApiCall.putLifecycleHook ++ [CreateApiCall.updateAutoScalingGroup uu]))) ∧
    (d.initialLifecycleHooks = [] →
      c.minSize = some d.minSize ∧ c.maxSize = some d.maxSize ∧
      c.desiredCapacity = (if d.desiredCapacity ≠ 0 then some d.desiredCapacity else none) ∧
      u = none ∧
      resourceAwsAutoscalingGroupCreateCalls d = .ok [CreateApiCall.createAutoScalingGroup c]) := by
  have hcalls : resourceAwsAutoscalingGroupCreateCalls d =
      .ok (CreateApiCall.createAutoScalingGroup c ::
        (match u with
         | some uu =>
           (generatePutLifecycleHookInputs d.name d.initialLifecycleHooks).map
             CreateApiCall.putLifecycleHook ++ [CreateApiCall.updateAutoScalingGroup uu]
         | none => [])) := by
    cases u with
    | none => simp [resourceAwsAutoscalingGroupCreateCalls, hb]
    | some uu => simp [resourceAwsAutoscalingGroupCreateCalls, hb]
  by_cases hh : d.initialLifecycleHooks = []
  · refine ⟨fun hne => absurd hh hne, fun _ => ?_⟩
    have hlen : ¬d.initialLifecycleHooks.length > 0 := by simp [hh]
    simp only [resourceAwsAutoscalingGroupCreateBuild, hlen, if_false, ite_false] at hb
    split at hb
    · exact absurd hb (by simp)
    · rw [Except.ok.injEq, Prod.mk.injEq] at hb
      obtain ⟨hc, hu⟩ := hb
      subst hc
      subst hu
      refine ⟨rfl, rfl, rfl, rfl, ?_⟩
      simpa using hcalls
  · refine ⟨fun _ => ?_, fun he => absurd he hh⟩
    have hlen : d.initialLifecycleHooks.length > 0 := List.length_pos.mpr hh
    simp only [resourceAwsAutoscalingGroupCreateBuild, hlen, if_true, ite_true] at hb
    split at hb
    · exact absurd hb (by simp)
    · rw [Except.ok.injEq, Prod.mk.injEq] at hb
      obtain ⟨hc, hu⟩ := hb
      subst hc
      subst hu
      refine ⟨rfl, rfl, rfl, ⟨_, rfl, rfl, rfl, rfl, ?_⟩⟩
      simpa using hcalls

/-- Witness for C2 on a spec with one hook and on the same spec without
hooks. -/
theorem C2_witness :
    (∃ c u, resourceAwsAutoscalingGroupCreateBuild c2HookedSpec = .ok (c, u) ∧
      c.minSize = some 0 ∧ c.maxSize = some 0 ∧ c.desiredCapacity = none ∧
      ∃ uu, u = some uu ∧ uu.minSize = some 1 ∧ uu.maxSize = some 3 ∧
        uu.desiredCapacity = some 2) ∧
    (∃ c u, resourceAwsAutoscalingGroupCreateBuild c2PlainSpec = .ok (c, u) ∧
      c.minSize = some 1 ∧ c.maxSize = some 3 ∧ c.desiredCapacity = some 2 ∧ u = none) := by
  constructor
  · refine ⟨_, _, rfl, ?_⟩
    have h := (C2_two_phase_capacities c2HookedSpec _ _ rfl).1 (by decide)
    obtain ⟨h1, h2, h3, uu, hu, h4, h5, h6, -⟩ := h
    exact ⟨h1, h2, h3, uu, hu, h4, h5, by simpa using h6⟩
  · refine ⟨_, _, rfl, ?_⟩
    have h := (C2_two_phase_capacities c2PlainSpec _ _ rfl).2 (by decide)
    obtain ⟨h1, h2, h3, h4, -⟩ := h
    exact ⟨h1, h2, by simpa using h3, h4⟩

/-- Concatenating the batches gives back the original list, for any fuel. -/
theorem asgBatchesAux_join (n : Nat) : ∀ l : List String, (asgBatchesAux n l).flatten = l := by
  induction n with
  | zero => intro l; simp [asgBatchesAux]
  | succ n ih =>
    intro l
    simp only [asgBatchesAux]
    split
    · simp [ih]
    · simp

/-- With sufficient fuel every batch has at most ten elements. -/
theorem asgBatchesAux_le (n : Nat) :
    ∀ l : List String, l.length ≤ n + 10 → ∀ b ∈ asgBatchesAux n l, b.length ≤ 10 := by
  induction n with
  | zero =>
    intro l hl b hb
    simp only [asgBatchesAux, List.mem_singleton] at hb
    subst hb
    omega
  | succ n ih =>
    intro l hl b hb
    simp only [asgBatchesAux] at hb
    split at hb
    · rcases List.mem_cons.mp hb with hb | hb
      · subst hb; simp
      · exact ih (l.drop 10) (by simp; omega) b hb
    · rw [List.mem_singleton] at hb
      subst hb
      omega

/-- The batches of a list concatenate back to it. -/
theorem asgBatches_join (l : List String) : (asgBatches l).flatten = l :=
  asgBatchesAux_join l.length l

/-- Every batch holds at most ten elements. -/
theorem asgBatches_le (l : List String) : ∀ b ∈ asgBatches l, b.length ≤ 10 :=
  asgBatchesAux_le l.length l (by omega)

/-- C3: both the removal and the addition lists of an attachment diff are
split into consecutive batches of at most ten items that concatenate back to
the full list, one API call is issued per batch with the convergence wait
between consecutive calls, and the 11-item removal with empty new set yields
exactly two detach calls (ten items, then one), each followed by its wait,
for load balancers and for target groups alike. -/
theorem C3_attachment_batching (old new : List String) :
    ((asgBatches (setDifference old new)).flatten = setDifference old new) ∧
    (∀ b ∈ asgBatches (setDifference old new), b.length ≤ 10) ∧
    ((asgBatches (setDifference new old)).flatten = setDifference new old) ∧
    (∀ b ∈ asgBatches (setDifference new old), b.length ≤ 10) ∧
    asgBatches c3ElevenNames = [["A", "B", "C", "D", "E", "F", "G", "H", "I", "J"], ["K"]] ∧
    updateLoadBalancersCalls c3ElevenNames [] =
      [.detachLoadBalancers ["A", "B", "C", "D", "E", "F", "G", "H", "I", "J"],
       .waitLoadBalancersRemoved,
       .detachLoadBalancers ["K"],
       .waitLoadBalancersRemoved] ∧
    updateTargetGroupsCalls c3ElevenNames [] =
      [.detachLoadBalancerTargetGroups ["A", "B", "C", "D", "E", "F", "G", "H", "I", "J"],
       .waitLoadBalancerTargetGroupsRemoved,
       .detachLoadBalancerTargetGroups ["K"],
       .waitLoadBalancerTargetGroupsRemoved] := by
  refine ⟨asgBatches_join _, asgBatches_le _, asgBatches_join _, asgBatches_le _, ?_, ?_, ?_⟩
    <;> rfl

/-- Witness for C3 at the 11-item scenario. -/
theorem C3_witness :
    (asgBatches (setDifference c3ElevenNames [])).flatten = setDifference c3ElevenNames [] ∧
    updateLoadBalancersCalls c3ElevenNames [] =
      [.detachLoadBalancers ["A", "B", "C", "D", "E", "F", "G", "H", "I", "J"],
       .waitLoadBalancersRemoved,
       .detachLoadBalancers ["K"],
       .waitLoadBalancersRemoved] :=
  ⟨(C3_attachment_batching c3ElevenNames []).1,
   (C3_attachment_batching c3ElevenNames []).2.2.2.2.2.1⟩

/-- The conditional fold building the propagated-tag map equals the plain
fold over the propagate-at-launch filtered tags. -/
theorem propagatedTagMap_eq_filter (tags : List AsgTag) :
    propagatedTagMap tags =
      (tags.filter fun t => t.propagateAtLaunch).foldl
        (fun m t => goMapInsert m t.key t.value) [] := by
  suffices h : ∀ init : List (String × String),
      tags.foldl (fun m t => if t.propagateAtLaunch then goMapInsert m t.key t.value else m)
        init =
      (tags.filter fun t => t.propagateAtLaunch).foldl
        (fun m t => goMapInsert m t.key t.value) init by
    simpa [propagatedTagMap] using h []
  induction tags with
  | nil => intro init; rfl
  | cons t ts ih =>
    intro init
    by_cases hp : t.propagateAtLaunch
    · simp [List.foldl_cons, List.filter_cons, hp, ih]
    · simp [List.foldl_cons, List.filter_cons, hp, ih]

/-- Go map insertion preserves key uniqueness. -/
theorem goMapInsert_keysUnique (m : List (String × String)) (k v : String)
    (h : keysUnique m) : keysUnique (goMapInsert m k v) := by
  unfold goMapInsert
  split
  · unfold keysUnique at h ⊢
    have hkeys : (m.map fun p => if p.1 == k then (k, v) else p).map Prod.fst =
        m.map Prod.fst := by
      rw [List.map_map]
      apply List.map_congr_left
      intro p _
      by_cases hpk : p.1 == k
      · simp only [Function.comp_apply, hpk, if_true, ite_true]
        exact (eq_of_beq hpk).symm
      · have hne : p.1 ≠ k := by simpa using hpk
        simp [Function.comp_apply, hne]
    rw [hkeys]
    exact h
  · next hany =>
    unfold keysUnique at h ⊢
    rw [List.map_append]
    have hk : k ∉ m.map Prod.fst := by
      intro hmem
      obtain ⟨p, hp, hpk⟩ := List.mem_map.mp hmem
      exact hany (List.any_eq_true.mpr ⟨p, hp, by simp [hpk]⟩)
    rw [List.nodup_append]
    refine ⟨h, List.nodup_singleton k, ?_⟩
    intro a ha hb
    simp only [List.map_cons, List.map_nil, List.mem_singleton] at hb
    subst hb
    exact hk ha

/-- The propagated-tag map always has unique keys. -/
theorem propagatedTagMap_keysUnique (tags : List AsgTag) :
    keysUnique (propagatedTagMap tags) := by
  suffices h : ∀ init : List (String × String), keysUnique init →
      keysUnique (tags.foldl
        (fun m t => if t.propagateAtLaunch then goMapInsert m t.key t.value else m) init) by
    simpa [propagatedTagMap] using h [] (by simp [keysUnique])
  induction tags with
  | nil => intro init hi; exact hi
  | cons t ts ih =>
    intro init hi
    rw [List.foldl_cons]
    by_cases hp : t.propagateAtLaunch
    · rw [if_pos hp]; exact ih _ (goMapInsert_keysUnique _ _ _ hi)
    · rw [if_neg hp]; exact ih _ hi

/-- In a unique-key association list, looking up a member's key finds its
value. -/
theorem lookup_self_of_keysUnique :
    ∀ m : List (String × String), keysUnique m → ∀ p ∈ m, m.lookup p.1 = some p.2 := by
  intro m
  induction m with
  | nil => intro _ p hp; cases hp
  | cons q t ih =>
    intro h p hp
    have h2 := h
    unfold keysUnique at h2
    rw [List.map_cons, List.nodup_cons] at h2
    rcases List.mem_cons.mp hp with hp1 | hp1
    · subst hp1
      simp [List.lookup]
    · have hne : (p.1 == q.1) = false := by
        rw [beq_eq_false_iff_ne]
        intro he
        exact h2.1 (he ▸ List.mem_map_of_mem Prod.fst hp1)
      rw [List.lookup, hne]
      exact ih h2.2 p hp1

/-- reflect.DeepEqual is reflexive on unique-key maps. -/
theorem goMapsDeepEqual_refl (m : List (String × String)) (h : keysUnique m) :
    goMapsDeepEqual m m = true := by
  unfold goMapsDeepEqual
  rw [Bool.and_eq_true]
  constructor <;>
    · rw [List.all_eq_true]
      intro p hp
      rw [lookup_self_of_keysUnique m h p hp]
      simp

/-- C9: when only the tags changed, the instances-need-refresh marker is set
exactly when the key-to-value map of the propagate-at-launch tags differs
between the old and new merged collections; in particular a change confined
to non-propagated tags leaves the marker unset. -/
theorem C9_tag_refresh_marker (c : UpdateCtx)
    (h1 : c.launchConfigurationChanged = false) (h2 : c.launchTemplateChanged = false)
    (h3 : c.mixedInstancesPolicyChanged = false) (h4 : c.vpcZoneIdentifierChanged = false)
    (h5 : c.availabilityZonesChanged = false) (h6 : c.placementGroupChanged = false)
    (h7 : c.tagChanged = true) :
    (shouldRefreshInstances c = true ↔
      goMapsDeepEqual (propagatedTagMap c.oldTags) (propagatedTagMap c.newTags) = false) ∧
    ((c.oldTags.filter fun t => t.propagateAtLaunch) =
        (c.newTags.filter fun t => t.propagateAtLaunch) →
      shouldRefreshInstances c = false) := by
  constructor
  · simp [shouldRefreshInstances, h1, h2, h3, h4, h5, h6, h7]
  · intro hf
    have heq : propagatedTagMap c.oldTags = propagatedTagMap c.newTags := by
      rw [propagatedTagMap_eq_filter, propagatedTagMap_eq_filter, hf]
    simp [shouldRefreshInstances, h1, h2, h3, h4, h5, h6, h7, heq,
      goMapsDeepEqual_refl _ (propagatedTagMap_keysUnique c.newTags)]

/-- Witness for C9: a purely non-propagated tag change leaves the marker
unset, a propagated tag change sets it. -/
theorem C9_witness :
    shouldRefreshInstances c9NonPropagatedCtx = false ∧
    shouldRefreshInstances c9PropagatedCtx = true :=
  ⟨(C9_tag_refresh_marker c9NonPropagatedCtx rfl rfl rfl rfl rfl rfl rfl).2 (by decide),
   (C9_tag_refresh_marker c9PropagatedCtx rfl rfl rfl rfl rfl rfl rfl).1.mpr (by decide)⟩

/-- A successful wait run always contains a final clean pass: either one that
a restart began at the first page, or the continuation of the starting
token itself. -/
theorem waitAttachLoop_ok_cleanPass (transitional : String)
    (srv : Nat → String → Except String AttachmentPage) :
    ∀ fuel k token, waitAttachLoop transitional srv fuel k token = .ok →
      ∃ f2 k2, k ≤ k2 ∧
        (cleanPassFrom transitional srv f2 k2 "" = true ∨
         (k2 = k ∧ cleanPassFrom transitional srv f2 k token = true)) := by
  intro fuel
  induction fuel with
  | zero => intro k token hok; cases hok
  | succ fuel ih =>
    intro k token hok
    rw [waitAttachLoop] at hok
    cases hsrv : srv k token with
    | error e => simp [hsrv] at hok
    | ok page =>
      simp only [hsrv] at hok
      by_cases hA : page.items.any (fun item => item.state == transitional)
      · rw [if_pos hA] at hok
        obtain ⟨f2, k2, hk2, hcp⟩ := ih (k + 1) "" hok
        rcases hcp with hcp | ⟨hk2e, hcp⟩
        · exact ⟨f2, k2, by omega, Or.inl hcp⟩
        · exact ⟨f2, k2, by omega, Or.inl (hk2e ▸ hcp)⟩
      · rw [if_neg hA] at hok
        by_cases hT : page.nextToken == ""
        · refine ⟨1, k, le_refl k, Or.inr ⟨rfl, ?_⟩⟩
          rw [cleanPassFrom, hsrv]
          simp only [Bool.and_eq_true, Bool.not_eq_true', Bool.or_eq_true]
          exact ⟨by simpa using hA, Or.inl hT⟩
        · rw [if_neg hT] at hok
          obtain ⟨f2, k2, hk2, hcp⟩ := ih (k + 1) page.nextToken hok
          rcases hcp with hcp | ⟨hk2e, hcp⟩
          · exact ⟨f2, k2, by omega, Or.inl hcp⟩
          · refine ⟨f2 + 1, k, le_refl k, Or.inr ⟨rfl, ?_⟩⟩
            rw [cleanPassFrom, hsrv]
            simp only [Bool.and_eq_true, Bool.not_eq_true', Bool.or_eq_true]
            exact ⟨by simpa using hA, Or.inr (hk2e ▸ hcp)⟩

/-- C4: a wait that starts at the first page and returns success contains a
full pass from the first page in which no page holds a transitional item and
whose final page carries no pagination token; a page with a transitional item
makes the loop restart from the first page; an API error aborts the wait at
once. -/
theorem C4_attachment_wait_semantics (transitional : String)
    (srv : Nat → String → Except String AttachmentPage) (fuel k : Nat)
    (hok : waitAttachLoop transitional srv fuel k "" = .ok) :
    (∃ f2 k2, k ≤ k2 ∧ cleanPassFrom transitional srv f2 k2 "" = true) ∧
    (∀ f2 k2 token e, srv k2 token = .error e →
      waitAttachLoop transitional srv (f2 + 1) k2 token = .apiError e) ∧
    (∀ f2 k2 token page, srv k2 token = .ok page →
      page.items.any (fun item => item.state == transitional) = true →
      waitAttachLoop transitional srv (f2 + 1) k2 token =
        waitAttachLoop transitional srv f2 (k2 + 1) "") := by
  refine ⟨?_, ?_, ?_⟩
  · obtain ⟨f2, k2, hk2, hcp⟩ := waitAttachLoop_ok_cleanPass transitional srv fuel k "" hok
    rcases hcp with hcp | ⟨hk2e, hcp⟩
    · exact ⟨f2, k2, hk2, hcp⟩
    · exact ⟨f2, k2, hk2, hk2e ▸ hcp⟩
  · intro f2 k2 token e hsrv
    rw [waitAttachLoop]
    simp [hsrv]
  · intro f2 k2 token page hsrv hA
    rw [waitAttachLoop]
    simp [hsrv, hA]

/-- Witness for C4: the simulated pagination of the spec, whose second page
still shows a Removing item on the first pass; the loop restarts from the
first page, succeeds on the clean second pass, and a clean pass from the
first page exists; an erroring provider aborts at once. -/
theorem C4_witness :
    (∃ f2 k2, 0 ≤ k2 ∧ cleanPassFrom "Removing" c4Srv f2 k2 "" = true) ∧
    waitAttachLoop "Removing" c4Srv 9 1 "T2" = waitAttachLoop "Removing" c4Srv 8 2 "" ∧
    waitAttachLoop "Removing" c4Srv 6 0 "T9" = .apiError "unexpected token" := by
  have h := C4_attachment_wait_semantics "Removing" c4Srv 10 0 (by decide)
  exact ⟨h.1, h.2.2 8 1 "T2" c4Page2Bad rfl (by decide),
    h.2.1 5 0 "T9" "unexpected token" rfl⟩

/-- C6: during the delete phase, ResourceInUse / ScalingActivityInProgress
responses are retried attempt after attempt until the retry budget (the
caller's delete timeout) is exhausted, with one final attempt past the
deadline; InvalidGroup.NotFound is success; any other error aborts after that
single call with no retry. -/
theorem C6_delete_retry_classification (env : AsgProviderEnv) (force : Bool) :
    (∀ fuel j,
      (∀ i, env.deleteGroup i = .errCode "ResourceInUse" ∨
            env.deleteGroup i = .errCode "ScalingActivityInProgress") →
      (∃ m, (deleteAttemptLoop env force fuel j).1 = .error m) ∧
      (deleteAttemptLoop env force fuel j).2.1.length = fuel + 1 ∧
      (∀ e ∈ (deleteAttemptLoop env force fuel j).2.1, isDeleteEvent e = true)) ∧
    (∀ fuel j, env.deleteGroup j = .errCode "InvalidGroup.NotFound" →
      deleteAttemptLoop env force fuel j =
        (.ok (), [.deleteGroup force (.errCode "InvalidGroup.NotFound")], j + 1)) ∧
    (∀ fuel j c, env.deleteGroup j = .errCode c →
      c ≠ "InvalidGroup.NotFound" → c ≠ "ResourceInUse" → c ≠ "ScalingActivityInProgress" →
      deleteAttemptLoop env force fuel j =
        (.error ("Error deleting autoscaling group: " ++ c),
         [.deleteGroup force (.errCode c)], j + 1)) ∧
    (∀ fuel j m, env.deleteGroup j = .plainError m →
      deleteAttemptLoop env force fuel j =
        (.error ("Error deleting autoscaling group: " ++ m),
         [.deleteGroup force (.plainError m)], j + 1)) := by
  refine ⟨?_, ?_, ?_, ?_⟩
  · intro fuel
    induction fuel with
    | zero =>
      intro j h
      rcases h j with hj | hj
      · exact ⟨⟨"Error deleting autoscaling group: ResourceInUse",
          by simp [deleteAttemptLoop, hj]⟩, by simp [deleteAttemptLoop, hj],
          by simp [deleteAttemptLoop, hj, isDeleteEvent]⟩
      · exact ⟨⟨"Error deleting autoscaling group: ScalingActivityInProgress",
          by simp [deleteAttemptLoop, hj]⟩, by simp [deleteAttemptLoop, hj],
          by simp [deleteAttemptLoop, hj, isDeleteEvent]⟩
    | succ fuel ih =>
      intro j h
      obtain ⟨⟨m, hm⟩, hlen, hmem⟩ := ih (j + 1) h
      have hstep : deleteAttemptLoop env force (fuel + 1) j =
          ((deleteAttemptLoop env force fuel (j + 1)).1,
           .deleteGroup force (env.deleteGroup j) ::
             (deleteAttemptLoop env force fuel (j + 1)).2.1,
           (deleteAttemptLoop env force fuel (j + 1)).2.2) := by
        rcases h j with hj | hj <;> simp [deleteAttemptLoop, hj]
      rw [hstep]
      refine ⟨⟨m, hm⟩, by simp [hlen], ?_⟩
      intro e he
      rcases List.mem_cons.mp he with he | he
      · subst he; rfl
      · exact hmem e he
  · intro fuel j hj
    cases fuel with
    | zero => simp [deleteAttemptLoop, hj]
    | succ n => simp [deleteAttemptLoop, hj]
  · intro fuel j c hj hne1 hne2 hne3
    cases fuel with
    | zero => simp [deleteAttemptLoop, hj, hne1]
    | succ n => simp [deleteAttemptLoop, hj, hne1, hne2, hne3]
  · intro fuel j m hj
    cases fuel with
    | zero => simp [deleteAttemptLoop, hj]
    | succ n => simp [deleteAttemptLoop, hj]

/-- Witness for C6 at three concrete providers: always-in-use (two retried
attempts plus the final one, all delete calls, ending in an error), a
not-found answer (immediate success), and an unclassified error (immediate
abort). -/
theorem C6_witness :
    ((∃ m, (deleteAttemptLoop c6InUseEnv false 2 0).1 = .error m) ∧
      (deleteAttemptLoop c6InUseEnv false 2 0).2.1.length = 3) ∧
    deleteAttemptLoop c6NotFoundEnv false 5 0 =
      (.ok (), [.deleteGroup false (.errCode "InvalidGroup.NotFound")], 1) ∧
    deleteAttemptLoop c6OtherErrorEnv false 5 0 =
      (.error ("Error deleting autoscaling group: " ++ "ValidationError"),
       [.deleteGroup false (.errCode "ValidationError")], 1) := by
  have h := C6_delete_retry_classification c6InUseEnv false
  have h1 := h.1 2 0 (fun i => Or.inl rfl)
  refine ⟨⟨h1.1, h1.2.1⟩, ?_, ?_⟩
  · exact (C6_delete_retry_classification c6NotFoundEnv false).2.1 5 0 rfl
  · exact (C6_delete_retry_classification c6OtherErrorEnv false).2.2.1 5 0 "ValidationError"
      rfl (by decide) (by decide) (by decide)

/-- The drain poll only issues describe calls, and when it succeeds its last
describe observed the group drained (gone or with zero instances). -/
theorem drainPoll_spec (env : AsgProviderEnv) :
    ∀ fuel k,
      (∀ e ∈ (drainPoll env fuel k).2.1, isDescribeEvent e = true) ∧
      ((drainPoll env fuel k).1 = .ok () →
        ∃ pre last, (drainPoll env fuel k).2.1 = pre ++ [last] ∧ observesDrained last = true) := by
  intro fuel
  induction fuel with
  | zero =>
    intro k
    cases hd : env.describe k with
    | apiError m => exact ⟨by simp [drainPoll, hd, isDescribeEvent], by simp [drainPoll, hd]⟩
    | notFound =>
      exact ⟨by simp [drainPoll, hd, isDescribeEvent],
        fun _ => ⟨[], .describeGroup .notFound, by simp [drainPoll, hd], by simp [observesDrained]⟩⟩
    | found g =>
      refine ⟨by simp [drainPoll, hd, isDescribeEvent], fun hok => ?_⟩
      by_cases hi : 0 < g.instances
      · simp [drainPoll, hd, hi] at hok
      · have hz : g.instances = 0 := by omega
        exact ⟨[], .describeGroup (.found g), by simp [drainPoll, hd],
          by simp [observesDrained, hz]⟩
  | succ fuel ih =>
    intro k
    cases hd : env.describe k with
    | apiError m => exact ⟨by simp [drainPoll, hd, isDescribeEvent], by simp [drainPoll, hd]⟩
    | notFound =>
      exact ⟨by simp [drainPoll, hd, isDescribeEvent],
        fun _ => ⟨[], .describeGroup .notFound, by simp [drainPoll, hd], by simp [observesDrained]⟩⟩
    | found g =>
      by_cases hz : g.instances = 0
      · exact ⟨by simp [drainPoll, hd, hz, isDescribeEvent],
          fun _ => ⟨[], .describeGroup (.found g), by simp [drainPoll, hd, hz],
            by simp [observesDrained, hz]⟩⟩
      · have hstep : drainPoll env (fuel + 1) k =
            ((drainPoll env fuel (k + 1)).1,
             .describeGroup (.found g) :: (drainPoll env fuel (k + 1)).2.1,
             (drainPoll env fuel (k + 1)).2.2) := by
          simp [drainPoll, hd, hz]
        obtain ⟨ihmem, ihok⟩ := ih (k + 1)
        rw [hstep]
        constructor
        · intro e he
          rcases List.mem_cons.mp he with he | he
          · subst he; rfl
          · exact ihmem e he
        · intro hok
          obtain ⟨pre, last, htr, hlast⟩ := ihok hok
          exact ⟨.describeGroup (.found g) :: pre, last, by simp [htr], hlast⟩

/-- The delete retry loop always opens with the delete call for its starting
index, and every event it issues is a delete call. -/
theorem deleteAttemptLoop_events (env : AsgProviderEnv) (force : Bool) :
    ∀ fuel j,
      (∃ rest, (deleteAttemptLoop env force fuel j).2.1 =
        .deleteGroup force (env.deleteGroup j) :: rest) ∧
      (∀ e ∈ (deleteAttemptLoop env force fuel j).2.1, isDeleteEvent e = true) := by
  intro fuel
  induction fuel with
  | zero =>
    intro j
    cases hd : env.deleteGroup j with
    | ok => exact ⟨⟨[], by simp [deleteAttemptLoop, hd]⟩,
        by simp [deleteAttemptLoop, hd, isDeleteEvent]⟩
    | errCode c => exact ⟨⟨[], by simp [deleteAttemptLoop, hd]⟩,
        by simp [deleteAttemptLoop, hd, isDeleteEvent]⟩
    | plainError m => exact ⟨⟨[], by simp [deleteAttemptLoop, hd]⟩,
        by simp [deleteAttemptLoop, hd, isDeleteEvent]⟩
  | succ fuel ih =>
    intro j
    cases hd : env.deleteGroup j with
    | ok => exact ⟨⟨[], by simp [deleteAttemptLoop, hd]⟩,
        by simp [deleteAttemptLoop, hd, isDeleteEvent]⟩
    | errCode c =>
      by_cases h1 : c = "InvalidGroup.NotFound"
      · exact ⟨⟨[], by simp [deleteAttemptLoop, hd, h1]⟩,
          by simp [deleteAttemptLoop, hd, h1, isDeleteEvent]⟩
      · by_cases h2 : c = "ResourceInUse" ∨ c = "ScalingActivityInProgress"
        · have hstep : deleteAttemptLoop env force (fuel + 1) j =
              ((deleteAttemptLoop env force fuel (j + 1)).1,
               .deleteGroup force (.errCode c) ::
                 (deleteAttemptLoop env force fuel (j + 1)).2.1,
               (deleteAttemptLoop env force fuel (j + 1)).2.2) := by
            simp [deleteAttemptLoop, hd, h1, h2]
          rw [hstep]
          refine ⟨⟨(deleteAttemptLoop env force fuel (j + 1)).2.1, by simp [hd]⟩, ?_⟩
          intro e he
          rcases List.mem_cons.mp he with he | he
          · subst he; rfl
          · exact (ih (j + 1)).2 e he
        · exact ⟨⟨[], by simp [deleteAttemptLoop, hd, h1, h2]⟩,
            by simp [deleteAttemptLoop, hd, h1, h2, isDeleteEvent]⟩
    | plainError m => exact ⟨⟨[], by simp [deleteAttemptLoop, hd]⟩,
        by simp [deleteAttemptLoop, hd, isDeleteEvent]⟩

/-- The post-delete poll only issues describe calls. -/
theorem deletePoll_events (env : AsgProviderEnv) :
    ∀ fuel k, ∀ e ∈ (deletePoll env fuel k).2.1, isDescribeEvent e = true := by
  intro fuel
  induction fuel with
  | zero =>
    intro k e he
    cases hd : env.describe k <;> simp [deletePoll, hd] at he <;> subst he <;> rfl
  | succ fuel ih =>
    intro k e he
    cases hd : env.describe k with
    | found g =>
      simp only [deletePoll, hd] at he
      rcases List.mem_cons.mp he with he | he
      · subst he; rfl
      · exact ih (k + 1) e he
    | notFound => simp [deletePoll, hd] at he; subst he; rfl
    | apiError m => simp [deletePoll, hd] at he; subst he; rfl

/-- Unfolding of the delete path once the initial describe has found a group
that still needs draining. -/
theorem delete_unfold_found (env : AsgProviderEnv) (force : Bool)
    (drainFuel deleteFuel pollFuel : Nat) (g : AsgGroup)
    (henv : env.describe 0 = .found g)
    (hneed : 0 < g.instances ∨ 0 < g.desiredCapacity) :
    resourceAwsAutoscalingGroupDelete env force drainFuel deleteFuel pollFuel =
      (match resourceAwsAutoscalingGroupDrain env force drainFuel 1 with
       | (.error m, tr, _) => (.error m, .describeGroup (.found g) :: tr)
       | (.ok _, tr, k) =>
         match deleteAttemptLoop env force deleteFuel 0 with
         | (.error m, tr2, _) => (.error m, .describeGroup (.found g) :: (tr ++ tr2))
         | (.ok _, tr2, _) =>
           ((deletePoll env pollFuel k).1,
            .describeGroup (.found g) :: (tr ++ tr2 ++ (deletePoll env pollFuel k).2.1))) := by
  simp [resourceAwsAutoscalingGroupDelete, henv, hneed]

/-- C5: for a group that still has instances or positive desired capacity,
the force-delete path goes straight from the initial describe to the delete
request with no capacity update and no drain polling, while the non-force
path issues the capacity-to-zero update right after the describe and issues
delete requests only after a drain-poll segment whose final describe observed
the group drained. -/
theorem C5_drain_before_delete (env : AsgProviderEnv) (g : AsgGroup)
    (drainFuel deleteFuel pollFuel : Nat)
    (henv : env.describe 0 = .found g)
    (hneed : 0 < g.instances ∨ 0 < g.desiredCapacity) :
    (∃ r trDel trP,
      resourceAwsAutoscalingGroupDelete env true drainFuel deleteFuel pollFuel =
        (r, .describeGroup (.found g) :: (trDel ++ trP)) ∧
      (∃ rest, trDel = .deleteGroup true (env.deleteGroup 0) :: rest) ∧
      (∀ e ∈ trDel, isDeleteEvent e = true) ∧
      (∀ e ∈ trP, isDescribeEvent e = true) ∧
      DeleteApiEvent.updateGroupZero ∉
        DeleteApiEvent.describeGroup (.found g) :: (trDel ++ trP)) ∧
    (∃ r trD trDel trP,
      resourceAwsAutoscalingGroupDelete env false drainFuel deleteFuel pollFuel =
        (r, .describeGroup (.found g) :: .updateGroupZero :: (trD ++ trDel ++ trP)) ∧
      (∀ e ∈ trD, isDescribeEvent e = true) ∧
      (∀ e ∈ trDel, isDeleteEvent e = true) ∧
      (∀ e ∈ trP, isDescribeEvent e = true) ∧
      (trDel ≠ [] → ∃ pre last, trD = pre ++ [last] ∧ observesDrained last = true)) := by
  constructor
  · have hu := delete_unfold_found env true drainFuel deleteFuel pollFuel g henv hneed
    have hdrain : resourceAwsAutoscalingGroupDrain env true drainFuel 1 = (.ok (), [], 1) := by
      simp [resourceAwsAutoscalingGroupDrain]
    rw [hdrain] at hu
    obtain ⟨⟨rest, hrest⟩, hall⟩ := deleteAttemptLoop_events env true deleteFuel 0
    rcases hdl : deleteAttemptLoop env true deleteFuel 0 with ⟨r2, tr2, j2⟩
    rw [hdl] at hu hrest hall
    simp only [] at hrest hall
    cases r2 with
    | error m =>
      simp only [] at hu
      refine ⟨.error m, tr2, [], by rw [hu]; simp, ⟨rest, hrest⟩, hall, by simp, ?_⟩
      intro hmem
      rcases List.mem_cons.mp hmem with h | h
      · simp at h
      · rcases List.mem_append.mp h with h | h
        · simpa [isDeleteEvent] using hall _ h
        · simp at h
    | ok u =>
      cases u
      simp only [] at hu
      refine ⟨(deletePoll env pollFuel 1).1, tr2, (deletePoll env pollFuel 1).2.1,
        by rw [hu]; simp, ⟨rest, hrest⟩, hall, deletePoll_events env pollFuel 1, ?_⟩
      intro hmem
      rcases List.mem_cons.mp hmem with h | h
      · simp at h
      · rcases List.mem_append.mp h with h | h
        · simpa [isDeleteEvent] using hall _ h
        · simpa [isDescribeEvent] using deletePoll_events env pollFuel 1 _ h
  · have hu := delete_unfold_found env false drainFuel deleteFuel pollFuel g henv hneed
    cases hup : env.updateGroup with
    | err m =>
      have hdrain : resourceAwsAutoscalingGroupDrain env false drainFuel 1 =
          (.error ("Error setting capacity to zero to drain: " ++ m), [.updateGroupZero], 1) := by
        simp [resourceAwsAutoscalingGroupDrain, hup]
      rw [hdrain] at hu
      simp only [] at hu
      exact ⟨.error ("Error setting capacity to zero to drain: " ++ m), [], [], [],
        by rw [hu]; simp, by simp, by simp, by simp, fun h => absurd rfl h⟩
    | ok =>
      have hdp := drainPoll_spec env drainFuel 1
      rcases hpoll : drainPoll env drainFuel 1 with ⟨rD, trD0, kD⟩
      rw [hpoll] at hdp
      simp only [] at hdp
      have hdrain : resourceAwsAutoscalingGroupDrain env false drainFuel 1 =
          (rD, .updateGroupZero :: trD0, kD) := by
        simp [resourceAwsAutoscalingGroupDrain, hup, hpoll]
      rw [hdrain] at hu
      cases rD with
      | error m =>
        simp only [] at hu
        exact ⟨.error m, trD0, [], [], by rw [hu]; simp, hdp.1, by simp, by simp,
          fun h => absurd rfl h⟩
      | ok u =>
        cases u
        obtain ⟨pre, last, htr, hlast⟩ := hdp.2 rfl
        obtain ⟨⟨rest, hrest⟩, hall⟩ := deleteAttemptLoop_events env false deleteFuel 0
        rcases hdl : deleteAttemptLoop env false deleteFuel 0 with ⟨r2, tr2, j2⟩
        rw [hdl] at hu hrest hall
        simp only [] at hu hrest hall
        cases r2 with
        | error m =>
          refine ⟨.error m, trD0, tr2, [], by rw [hu]; simp, hdp.1, hall, by simp, ?_⟩
          intro hne
          exact ⟨pre, last, htr, hlast⟩
        | ok u =>
          cases u
          refine ⟨(deletePoll env pollFuel kD).1, trD0, tr2, (deletePoll env pollFuel kD).2.1,
            by rw [hu]; simp, hdp.1, hall, deletePoll_events env pollFuel kD, ?_⟩
          intro hne
          exact ⟨pre, last, htr, hlast⟩

/-- Witness for C5 on a provider whose group starts with three instances:
with force-delete the trace goes describe then delete with no capacity
update; without it the capacity-to-zero update follows the describe and the
delete comes only after a drain poll ending in a zero-instance observation. -/
theorem C5_witness :
    (∃ r trDel trP,
      resourceAwsAutoscalingGroupDelete c5Env true 4 4 4 =
        (r, .describeGroup (.found { instances := 3, desiredCapacity := 3 }) ::
          (trDel ++ trP)) ∧
      (∃ rest, trDel = .deleteGroup true (c5Env.deleteGroup 0) :: rest) ∧
      (∀ e ∈ trDel, isDeleteEvent e = true) ∧
      (∀ e ∈ trP, isDescribeEvent e = true) ∧
      DeleteApiEvent.updateGroupZero ∉
        DeleteApiEvent.describeGroup (.found { instances := 3, desiredCapacity := 3 }) ::
          (trDel ++ trP)) ∧
    (∃ r trD trDel trP,
      resourceAwsAutoscalingGroupDelete c5Env false 4 4 4 =
        (r, .describeGroup (.found { instances := 3, desiredCapacity := 3 }) ::
          .updateGroupZero :: (trD ++ trDel ++ trP)) ∧
      (∀ e ∈ trD, isDescribeEvent e = true) ∧
      (∀ e ∈ trDel, isDeleteEvent e = true) ∧
      (∀ e ∈ trP, isDescribeEvent e = true) ∧
      (trDel ≠ [] → ∃ pre last, trD = pre ++ [last] ∧ observesDrained last = true)) :=
  C5_drain_before_delete c5Env { instances := 3, desiredCapacity := 3 } 4 4 4 rfl
    (Or.inl (by decide))
